import Mathlib

/-!
Shallow embedding of `src/main.py` of the e621-animated-bot repository:
the fetch → filter → dispatch pipeline, its scheduler, the caption
escaping, the WebM→MP4 conversion temp-file handling, and the
per-channel Prometheus counters.

External collaborators (the Telegram SDK, the HTTP client, the
transcoder) are modelled as oracles: a behaviour record says, for one
dispatch, whether each external call succeeds or which exception class it
raises.  Python exception classes relevant to `main.py` are modelled by
`PyError`; the fact `telegram.error.TimedOut` is a subclass of
`telegram.error.TelegramError` (via `NetworkError`) is reflected in
`isTelegramError`.
-/

namespace E621Bot

/-! ## Data model (§3 of the spec; JSON post shape used by main.py) -/

structure PostFile where
  url : String
  size : Nat
deriving Repr, DecidableEq

structure Post where
  id : Nat
  /-- `post['tags']`: mapping category name → list of tag strings. -/
  tags : List (String × List String)
  score_total : Int
  fav_count : Nat
  file : PostFile
deriving Repr, DecidableEq

/-! ## Blacklist filter — `is_blacklisted`, main.py lines 114–121 -/

/-- The union of all tag-category sets on the post (`post_tags` in the code). -/
def allPostTags (post : Post) : List String :=
  (post.tags.map Prod.snd).flatten

/-- `is_blacklisted(post)`: unions every tag category and intersects with the
blacklist (`bool(post_tags & blacklist)`).  The process-global `blacklist`
set is passed explicitly. -/
def is_blacklisted (post : Post) (blacklist : List String) : Bool :=
  (allPostTags post).any (fun t => blacklist.contains t)

/-! ## Caption escaping — `escape_markdown`, main.py lines 123–128 -/

/-- The character class of `escape_chars = r'_*[]()~`>#+-=|{}.!'`. -/
def escape_chars : List Char := "_*[]()~`>#+-=|\x7b\x7d.!".data

def isEscapeChar (c : Char) : Bool := escape_chars.contains c

/-- `re.sub(f'([{...}])', r'\\\1', text)` on the character list: every
character of the class gets a backslash prepended; all others pass through. -/
def escapeList : List Char → List Char
  | [] => []
  | c :: cs => (if isEscapeChar c then ['\\', c] else [c]) ++ escapeList cs

def escape_markdown (text : String) : String :=
  String.mk (escapeList text.data)

/-! ## Caption rendering — `send_telegram_message`, main.py lines 161–171 -/

/-- `post['tags'][category]`, with a missing category reading as the empty
list (main.py always receives both `artist` and `character` from the API). -/
def lookupTags (post : Post) (category : String) : List String :=
  match post.tags.find? (fun p => p.fst == category) with
  | some p => p.snd
  | none => []

/-- `', '.join(...)`. -/
def joinComma (l : List String) : String := String.intercalate ", " l

/-- `', '.join(post['tags']['artist']) if post['tags']['artist'] else 'Unknown Artist'`. -/
def artistText (post : Post) : String :=
  if lookupTags post "artist" = [] then "Unknown Artist"
  else joinComma (lookupTags post "artist")

/-- `', '.join(post['tags']['character']) if ... else 'No specific character'`. -/
def characterText (post : Post) : String :=
  if lookupTags post "character" = [] then "No specific character"
  else joinComma (lookupTags post "character")

/-- `message_text` as built on lines 167–171: each free-text field passes
through `escape_markdown` exactly once before interpolation. -/
def message_text (post : Post) : String :=
  "*Artist:* " ++ escape_markdown (artistText post) ++ "\n" ++
  "*Characters:* " ++ escape_markdown (characterText post) ++ "\n" ++
  "*Score:* " ++ toString post.score_total ++ "\n" ++
  "*Favorites:* " ++ toString post.fav_count ++ "\n" ++
  "[Original Post](https://e621.net/posts/" ++ toString post.id ++ ")"

/-! ## Exception model

`main.py` distinguishes three exception classes when sending:
`telegram.error.TimedOut`, other `telegram.error.TelegramError`s, and any
other `Exception`.  In the python-telegram-bot library `TimedOut` derives
from `NetworkError`, which derives from `TelegramError`; hence an
`except TelegramError` clause also catches `TimedOut`. -/

inductive PyError where
  /-- `telegram.error.TimedOut`. -/
  | timedOut
  /-- a `telegram.error.TelegramError` that is not a timeout (e.g. the
  transport rejecting the content as an invalid video). -/
  | telegramError
  /-- any other `Exception`. -/
  | otherError
deriving Repr, DecidableEq

/-- Which errors an `except TelegramError` clause catches: `TimedOut` is a
subclass of `TelegramError`, so it is caught too. -/
def isTelegramError : PyError → Bool
  | .timedOut => true
  | .telegramError => true
  | .otherError => false

/-- Which errors an `except TimedOut` clause catches. -/
def isTimedOut : PyError → Bool
  | .timedOut => true
  | _ => false

/-! ## Prometheus counters — main.py lines 56–65 -/

structure Metrics where
  posts_processed : Nat
  posts_sent : Nat
  conversion_errors : Nat
  api_errors : Nat
  telegram_errors : Nat
  posts_processed_2 : Nat
  posts_sent_2 : Nat
deriving Repr, DecidableEq

def Metrics.zero : Metrics := ⟨0, 0, 0, 0, 0, 0, 0⟩

/-- `POSTS_SENT_2.inc()` / `POSTS_SENT.inc()` depending on `is_second_channel`. -/
def incSent (is_second_channel : Bool) (m : Metrics) : Metrics :=
  if is_second_channel then { m with posts_sent_2 := m.posts_sent_2 + 1 }
  else { m with posts_sent := m.posts_sent + 1 }

/-- `POSTS_PROCESSED_2.inc()` / `POSTS_PROCESSED.inc()`. -/
def incProcessed (is_second_channel : Bool) (m : Metrics) : Metrics :=
  if is_second_channel then { m with posts_processed_2 := m.posts_processed_2 + 1 }
  else { m with posts_processed := m.posts_processed + 1 }

def incConversionErrors (m : Metrics) : Metrics :=
  { m with conversion_errors := m.conversion_errors + 1 }

def incApiErrors (m : Metrics) : Metrics :=
  { m with api_errors := m.api_errors + 1 }

def incTelegramErrors (m : Metrics) : Metrics :=
  { m with telegram_errors := m.telegram_errors + 1 }

/-- The per-channel processed counter (`POSTS_PROCESSED_2` vs `POSTS_PROCESSED`). -/
def chanProcessed (is_second_channel : Bool) (m : Metrics) : Nat :=
  if is_second_channel then m.posts_processed_2 else m.posts_processed

/-- The per-channel sent counter (`POSTS_SENT_2` vs `POSTS_SENT`). -/
def chanSent (is_second_channel : Bool) (m : Metrics) : Nat :=
  if is_second_channel then m.posts_sent_2 else m.posts_sent

/-! ## External-call oracles -/

/-- Behaviour of the transcoder/downloader for one `convert_webm_to_mp4`
call. `tempStem` is the path (without extension) that
`tempfile.NamedTemporaryFile(suffix='.webm')` picks. -/
structure ConvOracle where
  /-- `requests.get` + the chunked write complete without raising. -/
  downloadOk : Bool
  /-- `VideoFileClip(...)` / `write_videofile(...)` completes without raising. -/
  transcodeOk : Bool
  tempStem : String
deriving Repr, DecidableEq

def ConvOracle.webmPath (o : ConvOracle) : String := o.tempStem ++ ".webm"

def ConvOracle.mp4Path (o : ConvOracle) : String := o.tempStem ++ ".mp4"

/-- Behaviour of the Telegram transport for one post: `none` means the call
returns normally, `some e` means it raises `e`. -/
structure Transport where
  /-- `bot.send_video` with the locally converted file (webm branch). -/
  sendVideoFile : Option PyError
  /-- `bot.send_video` with the remote URL (non-webm branch). -/
  sendVideoUrl : Option PyError
  /-- `bot.send_animation` with the remote URL (fallback). -/
  sendAnimationUrl : Option PyError
deriving Repr, DecidableEq

/-! ## Media normalizer — `convert_webm_to_mp4`, main.py lines 130–154

The filesystem is modelled as the list of temporary artifact paths that
currently exist.  The function returns `some mp4_path` on success and
`none` on failure, exactly like the Python (`return None` in the `except`
clause), updating the filesystem on the way. -/

def convert_webm_to_mp4 (o : ConvOracle) (files : List String) :
    Option String × List String :=
  -- `NamedTemporaryFile(suffix='.webm', delete=False)` creates the file.
  let files1 := o.webmPath :: files
  if o.downloadOk then
    -- the with-block finished, so `temp_webm_path` is bound
    if o.transcodeOk then
      -- `write_videofile` produced the mp4; the `finally` removes the webm
      -- because `temp_webm_path` is in `locals()` and the file exists
      (some o.mp4Path, o.mp4Path :: files1.erase o.webmPath)
    else
      -- the transcoder raised: caught, returns None; `finally` removes the webm
      (none, files1.erase o.webmPath)
  else
    -- the download raised inside the with-block, before the line
    -- `temp_webm_path = temp_webm.name` ran: the `finally` guard
    -- `'temp_webm_path' in locals()` is False, so the webm file stays
    (none, files1)

/-! ## Dispatcher — `send_telegram_message`, main.py lines 156–238 -/

/-- One call to the transport, as observed on the wire. -/
inductive SendCall where
  | video (chat_id : String) (payload : String) (caption : String)
  | animation (chat_id : String) (payload : String) (caption : String)
deriving Repr, DecidableEq

def SendCall.chatId : SendCall → String
  | .video c _ _ => c
  | .animation c _ _ => c

def SendCall.caption : SendCall → String
  | .video _ _ cap => cap
  | .animation _ _ cap => cap

/-- The spec's `DispatchOutcome`, §3, as observable from the code's paths. -/
inductive Outcome where
  | deliveredVideo
  | deliveredAnimation
  /-- conversion failed; the post is skipped (`return` on line 201). -/
  | skippedConversion
  | failedTimeout
  | failedTransport
  | failedUnexpected
deriving Repr, DecidableEq

/-- Mutable state threaded through one dispatch: counters, temp files on
disk, and the trace of transport calls made so far. -/
structure DispatchState where
  metrics : Metrics
  files : List String
  calls : List SendCall
deriving Repr, DecidableEq

/-- Record one transport call; `none` returns normally, `some e` raises. -/
def attemptSend (result : Option PyError) (call : SendCall) (s : DispatchState) :
    Except (PyError × DispatchState) DispatchState :=
  let s1 := { s with calls := s.calls ++ [call] }
  match result with
  | none => .ok s1
  | some e => .error (e, s1)

/-- `file_url.lower().endswith('.webm')`, on the character list. -/
def endsWithWebm (url : String) : Bool :=
  let lowered := url.data.map Char.toLower
  lowered.drop (lowered.length - ".webm".data.length) == ".webm".data

/-- The body of the outer `try` of `send_telegram_message` (lines 160–228).
An uncaught exception is an `.error` carrying the state at the raise. -/
def send_inner (post : Post) (chat_id : String) (is_second_channel : Bool)
    (conv : ConvOracle) (tr : Transport) (s : DispatchState) :
    Except (PyError × DispatchState) (DispatchState × Outcome) :=
  let caption := message_text post
  if endsWithWebm post.file.url then
    match convert_webm_to_mp4 conv s.files with
    | (some mp4, files1) =>
      match attemptSend tr.sendVideoFile (.video chat_id mp4 caption)
          { s with files := files1 } with
      | .error es => .error es
      | .ok s2 =>
        -- `os.remove(mp4_path)` runs only here, on the success path
        .ok ({ s2 with files := s2.files.erase mp4,
                       metrics := incSent is_second_channel s2.metrics },
             .deliveredVideo)
    | (none, files1) =>
      -- `CONVERSION_ERRORS.inc()` then `return` (lines 199–201)
      .ok ({ s with files := files1,
                    metrics := incConversionErrors s.metrics },
           .skippedConversion)
  else
    match attemptSend tr.sendVideoUrl (.video chat_id post.file.url caption) s with
    | .ok s1 =>
      .ok ({ s1 with metrics := incSent is_second_channel s1.metrics },
           .deliveredVideo)
    | .error (e, s1) =>
      -- inner `except TelegramError` (line 216); `TimedOut` is a subclass,
      -- so a timeout of the video attempt also lands here
      if isTelegramError e then
        match attemptSend tr.sendAnimationUrl
            (.animation chat_id post.file.url caption) s1 with
        | .ok s2 =>
          .ok ({ s2 with metrics := incSent is_second_channel s2.metrics },
               .deliveredAnimation)
        | .error es => .error es
      else
        .error (e, s1)

/-- Which outer `except` clause of lines 230–238 an escaping exception
matches: `except TimedOut` first, then `except TelegramError`, then
`except Exception`, which catches every remaining (non-Base) exception. -/
def classifyOuter (e : PyError) : Outcome :=
  if isTimedOut e then .failedTimeout
  else if isTelegramError e then .failedTransport
  else .failedUnexpected

/-- The outer handlers (lines 230–238): each of the three `except` clauses
increments `TELEGRAM_ERRORS`.  The result is `Except` to make visible
whether any exception escapes the function. -/
def send_telegram_message_exc (post : Post) (chat_id : String)
    (is_second_channel : Bool) (conv : ConvOracle) (tr : Transport)
    (s : DispatchState) :
    Except (PyError × DispatchState) (DispatchState × Outcome) :=
  match send_inner post chat_id is_second_channel conv tr s with
  | .ok r => .ok r
  | .error (e, s1) =>
    .ok ({ s1 with metrics := incTelegramErrors s1.metrics }, classifyOuter e)

/-- `send_telegram_message` as the total function it is: no exception
escapes its outer handlers. -/
def send_telegram_message (post : Post) (chat_id : String)
    (is_second_channel : Bool) (conv : ConvOracle) (tr : Transport)
    (s : DispatchState) : DispatchState × Outcome :=
  match send_telegram_message_exc post chat_id is_second_channel conv tr s with
  | .ok r => r
  | .error (_, s1) => (s1, .failedUnexpected)

/-! ## Channel router — `process_posts`, main.py lines 240–267 -/

/-- The module-level configuration globals `TELEGRAM_CHANNEL_ID` and
`TELEGRAM_CHANNEL_ID_2`, as read from the environment (after the
startup presence check on lines 36–38). -/
structure Globals where
  telegram_channel_id : String
  telegram_channel_id_2 : String
deriving Repr, DecidableEq

/-- One iteration body of the lines 41–45 loop: the value the loop computes
for its loop variable `channel_id`. -/
def normalizeChannelId (channel_id : String) : String :=
  if "@".data.isPrefixOf channel_id.data then channel_id
  else if !("-100".data.isPrefixOf channel_id.data) then "@" ++ channel_id
  else channel_id

/-- The whole lines 41–45 loop, with Python's scoping: each iteration binds
the local `channel_id` and then reassigns that local only; the globals are
never assigned.  Returns the (unchanged) globals together with the last
value the dead local held, to keep the computed-and-dropped value visible. -/
def format_chat_ids (g : Globals) : Globals × Option String :=
  [g.telegram_channel_id, g.telegram_channel_id_2].foldl
    (fun acc v => (acc.fst, some (normalizeChannelId v))) (g, none)

/-- Per-post behaviour of the external world during one run. -/
structure RunOracle where
  conv : Post → ConvOracle
  tr : Post → Transport

/-- The per-post loop body, lines 250–259: `try: send; PROCESSED.inc()
except Exception: API_ERRORS.inc()`.  The `except` branch is reachable
only if `send_telegram_message` raises. -/
def perPost (is_second_channel : Bool) (chat_id : String) (oracle : RunOracle)
    (s : DispatchState) (post : Post) : DispatchState :=
  match send_telegram_message_exc post chat_id is_second_channel
      (oracle.conv post) (oracle.tr post) s with
  | .ok (s1, _) =>
    { s1 with metrics := incProcessed is_second_channel s1.metrics }
  | .error (_, s1) =>
    { s1 with metrics := incApiErrors s1.metrics }

/-- `process_posts`, lines 240–267.  `fetched` is the fetcher's result:
`none` models the `return None` after a `RequestException`, `some posts`
a successful JSON response.  Python's `if posts:` is falsy both for
`None` and for the empty list, and both fall into the same `else` branch
(error log + `API_ERRORS.inc()`). -/
def process_posts (is_second_channel : Bool) (g : Globals)
    (fetched : Option (List Post)) (blacklist : List String)
    (oracle : RunOracle) (s : DispatchState) : DispatchState :=
  match fetched with
  | some posts =>
    if posts.isEmpty then
      { s with metrics := incApiErrors s.metrics }
    else
      let chat_id := if is_second_channel then g.telegram_channel_id_2
                     else g.telegram_channel_id
      let filtered := posts.filter (fun post => !is_blacklisted post blacklist)
      filtered.foldl (perPost is_second_channel chat_id oracle) s
  | none =>
    { s with metrics := incApiErrors s.metrics }

/-! ## Scheduler — `run_scheduler`, main.py lines 269–296

Wall-clock time is modelled in seconds since an (arbitrary) UTC midnight.
Each loop iteration captures `now_utc` once, evaluates both channels'
triggers against it, and ends with `await asyncio.sleep(60)`; hence two
consecutive captured times are at least 60 seconds apart. -/

/-- The calendar minute a timestamp belongs to. -/
def minuteIndex (t : Nat) : Nat := t / 60

def hourOf (t : Nat) : Nat := (t / 3600) % 24

def minuteOf (t : Nat) : Nat := (t / 60) % 60

/-- `nz_offset = timedelta(hours=12)` in seconds. -/
def nzOffset : Nat := 12 * 3600

/-- Whether a channel's trigger matches at captured time `t`: the first
channel fires at UTC midnight (`now_utc.hour == 0 and now_utc.minute == 0`),
the second at NZ midnight (`now_nz = now_utc + nz_offset`). -/
def firesChannel (is_second_channel : Bool) (t : Nat) : Bool :=
  let tLocal := if is_second_channel then t + nzOffset else t
  hourOf tLocal == 0 && minuteOf tLocal == 0

/-- The scheduler's tick sequence: `ticks n` is the `now_utc` captured at
the top of iteration `n`.  `await asyncio.sleep(60)` at the end of each
iteration (plus any processing time) separates consecutive captures by at
least 60 seconds. -/
def SchedulerTicks (ticks : Nat → Nat) : Prop :=
  ∀ n, ticks n + 60 ≤ ticks (n + 1)

/-! ## Derived quantities -/

/-- How many fetched posts survive the blacklist filter; a failed fetch
(`none`) fetches nothing. -/
def nonBlacklistedCount (fetched : Option (List Post)) (blacklist : List String) : Nat :=
  match fetched with
  | some posts => (posts.filter (fun post => !is_blacklisted post blacklist)).length
  | none => 0

/-! ## Concrete fixtures used by witnesses and counterexamples -/

/-- A post whose media is not a WebM (direct-URL delivery path). -/
def gifPost : Post :=
  ⟨1, [("artist", ["anon"]), ("character", [])], 40, 7, ⟨"https://x/file.gif", 100⟩⟩

/-- A post whose media is a WebM (conversion path; matching is
case-insensitive, as in `file_url.lower()`). -/
def webmPost : Post :=
  ⟨2, [("artist", []), ("character", ["c"])], 50, 3, ⟨"https://x/file.WebM", 4096⟩⟩

def st0 : DispatchState := ⟨Metrics.zero, [], []⟩

def g0 : Globals := ⟨"chan1", "-1001234"⟩

/-- A conversion run in which download and transcode both succeed. -/
def cv0 : ConvOracle := ⟨true, true, "/tmp/t"⟩

/-- Transport: every call succeeds. -/
def trOk : Transport := ⟨none, none, none⟩

/-- Transport: the direct-URL video attempt times out, everything else
succeeds. -/
def trUrlVideoTimeout : Transport := ⟨none, some .timedOut, none⟩

/-- Transport: the converted-file video attempt is rejected as content. -/
def trFileReject : Transport := ⟨some .telegramError, none, none⟩

/-- Transport: the converted-file video attempt times out. -/
def trFileTimeout : Transport := ⟨some .timedOut, none, none⟩

/-- Transport: URL video attempt rejected, then the animation fallback
times out. -/
def trAnimTimeout : Transport := ⟨none, some .telegramError, some .timedOut⟩

def oracle0 : RunOracle := ⟨fun _ => cv0, fun _ => trOk⟩

/-- Transport: URL video attempt rejected as content, animation succeeds. -/
def trUrlReject : Transport := ⟨none, some .telegramError, none⟩

/-- A conversion run whose download raises mid-stream. -/
def cvDownloadFail : ConvOracle := ⟨false, true, "/tmp/t"⟩

/-! ## Helper lemmas: counter bumps and dispatch shape -/

theorem api_incSent (b : Bool) (m : Metrics) : (incSent b m).api_errors = m.api_errors := by
  cases b <;> simp [incSent]

theorem api_incConversionErrors (m : Metrics) :
    (incConversionErrors m).api_errors = m.api_errors := rfl

theorem api_incTelegramErrors (m : Metrics) :
    (incTelegramErrors m).api_errors = m.api_errors := rfl

theorem chanProcessed_incSent (b b2 : Bool) (m : Metrics) :
    chanProcessed b (incSent b2 m) = chanProcessed b m := by
  cases b <;> cases b2 <;> simp [chanProcessed, incSent]

theorem chanProcessed_incConversionErrors (b : Bool) (m : Metrics) :
    chanProcessed b (incConversionErrors m) = chanProcessed b m := by
  cases b <;> simp [chanProcessed, incConversionErrors]

theorem chanProcessed_incTelegramErrors (b : Bool) (m : Metrics) :
    chanProcessed b (incTelegramErrors m) = chanProcessed b m := by
  cases b <;> simp [chanProcessed, incTelegramErrors]

theorem chanSent_incConversionErrors (b : Bool) (m : Metrics) :
    chanSent b (incConversionErrors m) = chanSent b m := by
  cases b <;> simp [chanSent, incConversionErrors]

theorem chanSent_incTelegramErrors (b : Bool) (m : Metrics) :
    chanSent b (incTelegramErrors m) = chanSent b m := by
  cases b <;> simp [chanSent, incTelegramErrors]

theorem chanSent_incSent (b : Bool) (m : Metrics) :
    chanSent b (incSent b m) = chanSent b m + 1 := by
  cases b <;> simp [chanSent, incSent]

theorem calls_cond_one (s : List SendCall) (A : SendCall) (chat : String)
    (hA : A.chatId = chat) :
    ∀ call : SendCall, call ∈ s ∨ call = A → call ∈ s ∨ call.chatId = chat := by
  rintro call (h | h)
  · exact Or.inl h
  · exact Or.inr (h ▸ hA)

theorem calls_cond_two (s : List SendCall) (A B : SendCall) (chat : String)
    (hA : A.chatId = chat) (hB : B.chatId = chat) :
    ∀ call : SendCall, call ∈ s ∨ call = A ∨ call = B →
      call ∈ s ∨ call.chatId = chat := by
  rintro call (h | h | h)
  · exact Or.inl h
  · exact Or.inr (h ▸ hA)
  · exact Or.inr (h ▸ hB)

/-- `send_telegram_message_exc` never returns `.error`: both branches of its
outer match produce `.ok`. -/
theorem send_exc_total (post : Post) (chat_id : String) (is2 : Bool)
    (conv : ConvOracle) (tr : Transport) (s : DispatchState) :
    send_telegram_message_exc post chat_id is2 conv tr s =
      .ok (send_telegram_message post chat_id is2 conv tr s) := by
  unfold send_telegram_message send_telegram_message_exc
  rcases h : send_inner post chat_id is2 conv tr s with ⟨e, s1⟩ | r <;> simp [h]

theorem send_shape (post : Post) (chat_id : String) (is2 : Bool)
    (conv : ConvOracle) (tr : Transport) (s : DispatchState) :
    (send_telegram_message post chat_id is2 conv tr s).fst.metrics.api_errors
        = s.metrics.api_errors ∧
    chanProcessed is2 (send_telegram_message post chat_id is2 conv tr s).fst.metrics
        = chanProcessed is2 s.metrics ∧
    chanSent is2 (send_telegram_message post chat_id is2 conv tr s).fst.metrics
        ≤ chanSent is2 s.metrics + 1 ∧
    ∀ call ∈ (send_telegram_message post chat_id is2 conv tr s).fst.calls,
      call ∈ s.calls ∨ call.chatId = chat_id := by
  unfold send_telegram_message send_telegram_message_exc send_inner
  cases hw : endsWithWebm post.file.url
  case false =>
    simp only [hw, Bool.false_eq_true, reduceIte]
    rcases hv : tr.sendVideoUrl with _ | e
    · refine ⟨?_, ?_, ?_, ?_⟩
      · simp [attemptSend, hv, api_incSent]
      · simp [attemptSend, hv, chanProcessed_incSent]
      · simp [attemptSend, hv, chanSent_incSent]
      · simp [attemptSend, hv]
        exact calls_cond_one s.calls
          (SendCall.video chat_id post.file.url (message_text post)) chat_id rfl
    · cases e
      case timedOut =>
        rcases ha : tr.sendAnimationUrl with _ | e3
        · refine ⟨?_, ?_, ?_, ?_⟩
          · simp [attemptSend, hv, ha, isTelegramError, api_incSent]
          · simp [attemptSend, hv, ha, isTelegramError, chanProcessed_incSent]
          · simp [attemptSend, hv, ha, isTelegramError, chanSent_incSent]
          · simp [attemptSend, hv, ha, isTelegramError]
            exact calls_cond_two s.calls
              (SendCall.video chat_id post.file.url (message_text post))
              (SendCall.animation chat_id post.file.url (message_text post)) chat_id rfl rfl
        · refine ⟨?_, ?_, ?_, ?_⟩
          · simp [attemptSend, hv, ha, isTelegramError, api_incTelegramErrors]
          · simp [attemptSend, hv, ha, isTelegramError, chanProcessed_incTelegramErrors]
          · simp [attemptSend, hv, ha, isTelegramError, chanSent_incTelegramErrors]
          · simp [attemptSend, hv, ha, isTelegramError]
            exact calls_cond_two s.calls
              (SendCall.video chat_id post.file.url (message_text post))
              (SendCall.animation chat_id post.file.url (message_text post)) chat_id rfl rfl
      case telegramError =>
        rcases ha : tr.sendAnimationUrl with _ | e3
        · refine ⟨?_, ?_, ?_, ?_⟩
          · simp [attemptSend, hv, ha, isTelegramError, api_incSent]
          · simp [attemptSend, hv, ha, isTelegramError, chanProcessed_incSent]
          · simp [attemptSend, hv, ha, isTelegramError, chanSent_incSent]
          · simp [attemptSend, hv, ha, isTelegramError]
            exact calls_cond_two s.calls
              (SendCall.video chat_id post.file.url (message_text post))
              (SendCall.animation chat_id post.file.url (message_text post)) chat_id rfl rfl
        · refine ⟨?_, ?_, ?_, ?_⟩
          · simp [attemptSend, hv, ha, isTelegramError, api_incTelegramErrors]
          · simp [attemptSend, hv, ha, isTelegramError, chanProcessed_incTelegramErrors]
          · simp [attemptSend, hv, ha, isTelegramError, chanSent_incTelegramErrors]
          · simp [attemptSend, hv, ha, isTelegramError]
            exact calls_cond_two s.calls
              (SendCall.video chat_id post.file.url (message_text post))
              (SendCall.animation chat_id post.file.url (message_text post)) chat_id rfl rfl
      case otherError =>
        refine ⟨?_, ?_, ?_, ?_⟩
        · simp [attemptSend, hv, isTelegramError, api_incTelegramErrors]
        · simp [attemptSend, hv, isTelegramError, chanProcessed_incTelegramErrors]
        · simp [attemptSend, hv, isTelegramError, chanSent_incTelegramErrors]
        · simp [attemptSend, hv, isTelegramError]
          exact calls_cond_one s.calls
            (SendCall.video chat_id post.file.url (message_text post)) chat_id rfl
  case true =>
    simp only [hw, reduceIte]
    cases hd : conv.downloadOk
    · refine ⟨?_, ?_, ?_, ?_⟩
      · simp [convert_webm_to_mp4, hd, api_incConversionErrors]
      · simp [convert_webm_to_mp4, hd, chanProcessed_incConversionErrors]
      · simp [convert_webm_to_mp4, hd, chanSent_incConversionErrors]
      · simp [convert_webm_to_mp4, hd]
        exact fun call hc => Or.inl hc
    · cases ht : conv.transcodeOk
      · refine ⟨?_, ?_, ?_, ?_⟩
        · simp [convert_webm_to_mp4, hd, ht, api_incConversionErrors]
        · simp [convert_webm_to_mp4, hd, ht, chanProcessed_incConversionErrors]
        · simp [convert_webm_to_mp4, hd, ht, chanSent_incConversionErrors]
        · simp [convert_webm_to_mp4, hd, ht]
          exact fun call hc => Or.inl hc
      · rcases hf : tr.sendVideoFile with _ | e2
        · refine ⟨?_, ?_, ?_, ?_⟩
          · simp [convert_webm_to_mp4, hd, ht, attemptSend, hf, api_incSent]
          · simp [convert_webm_to_mp4, hd, ht, attemptSend, hf, chanProcessed_incSent]
          · simp [convert_webm_to_mp4, hd, ht, attemptSend, hf, chanSent_incSent]
          · simp [convert_webm_to_mp4, hd, ht, attemptSend, hf]
            exact calls_cond_one s.calls
              (SendCall.video chat_id conv.mp4Path (message_text post)) chat_id rfl
        · refine ⟨?_, ?_, ?_, ?_⟩
          · simp [convert_webm_to_mp4, hd, ht, attemptSend, hf, api_incTelegramErrors]
          · simp [convert_webm_to_mp4, hd, ht, attemptSend, hf, chanProcessed_incTelegramErrors]
          · simp [convert_webm_to_mp4, hd, ht, attemptSend, hf, chanSent_incTelegramErrors]
          · simp [convert_webm_to_mp4, hd, ht, attemptSend, hf]
            exact calls_cond_one s.calls
              (SendCall.video chat_id conv.mp4Path (message_text post)) chat_id rfl

/-! ## Claim theorems: scheduler, blacklist, escaping, empty fetch -/

theorem chanProcessed_incApiErrors (b : Bool) (m : Metrics) :
    chanProcessed b (incApiErrors m) = chanProcessed b m := by
  cases b <;> simp [chanProcessed, incApiErrors]

theorem chanSent_incApiErrors (b : Bool) (m : Metrics) :
    chanSent b (incApiErrors m) = chanSent b m := by
  cases b <;> simp [chanSent, incApiErrors]

theorem backslash_not_escape_char : isEscapeChar '\\' = false := by decide

theorem escapeList_length (l : List Char) :
    (escapeList l).length = l.length + l.countP isEscapeChar := by
  induction l with
  | nil => simp [escapeList]
  | cons c cs ih =>
    by_cases h : isEscapeChar c = true <;>
      simp [escapeList, h, ih, List.countP_cons] <;> omega

theorem escapeList_countP (l : List Char) :
    (escapeList l).countP isEscapeChar = l.countP isEscapeChar := by
  induction l with
  | nil => simp [escapeList]
  | cons c cs ih =>
    by_cases h : isEscapeChar c = true <;>
      simp [escapeList, h, ih, List.countP_cons, List.countP_append,
            backslash_not_escape_char]

/-- C6: membership in the blacklist test is exactly non-empty intersection
of the union of the post's tag-category sets with the blacklist. -/
theorem is_blacklisted_iff_intersects (post : Post) (blacklist : List String) :
    (is_blacklisted post blacklist = true ↔
      ∃ t, t ∈ allPostTags post ∧ t ∈ blacklist) ∧
    is_blacklisted post [] = false := by
  constructor
  · simp [is_blacklisted, List.any_eq_true]
  · simp [is_blacklisted]

/-- C7 (amended): escape_markdown is never idempotent on a string containing
a markup-control character, and message_text interpolates each free-text
field escaped exactly once. -/
theorem escape_markdown_single_pass :
    (∀ s : String, s.data.any isEscapeChar = true →
      escape_markdown (escape_markdown s) ≠ escape_markdown s) ∧
    (∀ post : Post, ∃ rest : String,
      message_text post =
        "*Artist:* " ++ escape_markdown (artistText post) ++ rest ∧
      ∃ rest2 : String,
        rest = "\n" ++ "*Characters:* " ++ escape_markdown (characterText post) ++ rest2) := by
  constructor
  · intro s hs heq
    have hd : (escape_markdown (escape_markdown s)).data = (escape_markdown s).data := by
      rw [heq]
    have hlen : (escape_markdown (escape_markdown s)).data.length
        = (escape_markdown s).data.length := by rw [hd]
    have h1 : (escape_markdown s).data = escapeList s.data := rfl
    have h2 : (escape_markdown (escape_markdown s)).data
        = escapeList (escapeList s.data) := rfl
    rw [h1, h2, escapeList_length, escapeList_countP] at hlen
    have hpos : 0 < s.data.countP isEscapeChar := by
      rcases List.any_eq_true.mp hs with ⟨c, hc, hcp⟩
      exact List.countP_pos_iff.mpr ⟨c, hc, hcp⟩
    omega
  · intro post
    refine ⟨"\n" ++ "*Characters:* " ++ escape_markdown (characterText post) ++
      ("\n" ++ "*Score:* " ++ toString post.score_total ++ "\n" ++
       "*Favorites:* " ++ toString post.fav_count ++ "\n" ++
       "[Original Post](https://e621.net/posts/" ++ toString post.id ++ ")"),
      ?_,
      "\n" ++ "*Score:* " ++ toString post.score_total ++ "\n" ++
       "*Favorites:* " ++ toString post.fav_count ++ "\n" ++
       "[Original Post](https://e621.net/posts/" ++ toString post.id ++ ")", ?_⟩
    · simp [message_text, String.append_assoc]
    · simp [String.append_assoc]

/-- C7 counterexample: the claim "escaping is idempotent" fails at the
tag string `*`. -/
theorem escape_markdown_not_idempotent_at_star :
    ("*".data.any isEscapeChar = true) ∧
    escape_markdown (escape_markdown "*") ≠ escape_markdown "*" := by decide

/-- C7 witness. -/
theorem escape_markdown_single_pass_witness :
    escape_markdown (escape_markdown "_") ≠ escape_markdown "_" :=
  escape_markdown_single_pass.1 "_" (by decide)

theorem schedulerTicks_gap (ticks : Nat → Nat) (h : SchedulerTicks ticks) :
    ∀ i j : Nat, i < j → ticks i + 60 ≤ ticks j := by
  intro i j hij
  induction j with
  | zero => omega
  | succ k ih =>
    rcases Nat.lt_succ_iff_lt_or_eq.mp hij with h2 | h2
    · have hk := h k
      have := ih h2
      omega
    · subst h2
      exact h i

/-- C1: the scheduler never fires the same channel twice within one
calendar minute: consecutive poll ticks are at least 60 s apart, so any
two firing ticks of a channel lie in different minutes. -/
theorem scheduler_at_most_once_per_minute (ticks : Nat → Nat)
    (h : SchedulerTicks ticks) (c : Bool) (i j : Nat) (hij : i < j)
    (_hi : firesChannel c (ticks i) = true)
    (_hj : firesChannel c (ticks j) = true) :
    minuteIndex (ticks i) ≠ minuteIndex (ticks j) := by
  have hg := schedulerTicks_gap ticks h i j hij
  unfold minuteIndex
  omega

/-- C1 witness: a daily tick grid firing channel one at both UTC midnights. -/
theorem scheduler_at_most_once_witness :
    minuteIndex 0 ≠ minuteIndex 86400 :=
  scheduler_at_most_once_per_minute (fun n => 86400 * n)
    (by intro n
        show 86400 * n + 60 ≤ 86400 * (n + 1)
        omega)
    false 0 1 (by omega) (by decide) (by decide)

/-- C2 counterexample: a fetch that returns zero posts is treated like a
failed fetch — the API error counter is incremented. -/
theorem empty_fetch_records_error :
    (process_posts false g0 (some []) [] oracle0 st0).metrics.api_errors = 1 ∧
    st0.metrics.api_errors = 0 ∧
    (process_posts false g0 (some []) [] oracle0 st0).metrics ≠ st0.metrics := by
  decide

/-- C2 (amended): an empty fetch leaves the channel's processed/sent
counters and the call trace unchanged and attempts no dispatch, but it
increments the API error counter by one (the code conflates the empty
list with a failed fetch). -/
theorem empty_fetch_behaviour (is2 : Bool) (g : Globals) (blacklist : List String)
    (oracle : RunOracle) (s : DispatchState) :
    chanProcessed is2 (process_posts is2 g (some []) blacklist oracle s).metrics
      = chanProcessed is2 s.metrics ∧
    chanSent is2 (process_posts is2 g (some []) blacklist oracle s).metrics
      = chanSent is2 s.metrics ∧
    (process_posts is2 g (some []) blacklist oracle s).metrics.api_errors
      = s.metrics.api_errors + 1 ∧
    (process_posts is2 g (some []) blacklist oracle s).calls = s.calls := by
  refine ⟨?_, ?_, ?_, ?_⟩
  · simp [process_posts, chanProcessed_incApiErrors]
  · simp [process_posts, chanSent_incApiErrors]
  · simp [process_posts, incApiErrors]
  · simp [process_posts]

/-! ## Helper lemmas: the per-post loop -/

theorem api_incProcessed (b : Bool) (m : Metrics) :
    (incProcessed b m).api_errors = m.api_errors := by
  cases b <;> simp [incProcessed]

theorem chanProcessed_incProcessed (b : Bool) (m : Metrics) :
    chanProcessed b (incProcessed b m) = chanProcessed b m + 1 := by
  cases b <;> simp [chanProcessed, incProcessed]

theorem chanSent_incProcessed (b b2 : Bool) (m : Metrics) :
    chanSent b (incProcessed b2 m) = chanSent b m := by
  cases b <;> cases b2 <;> simp [chanSent, incProcessed]

theorem perPost_api (is2 : Bool) (chat : String) (oracle : RunOracle)
    (s : DispatchState) (p : Post) :
    (perPost is2 chat oracle s p).metrics.api_errors = s.metrics.api_errors := by
  unfold perPost
  rw [send_exc_total]
  simp [api_incProcessed, (send_shape p chat is2 (oracle.conv p) (oracle.tr p) s).1]

theorem perPost_processed (is2 : Bool) (chat : String) (oracle : RunOracle)
    (s : DispatchState) (p : Post) :
    chanProcessed is2 (perPost is2 chat oracle s p).metrics
      = chanProcessed is2 s.metrics + 1 := by
  unfold perPost
  rw [send_exc_total]
  simp [chanProcessed_incProcessed,
        (send_shape p chat is2 (oracle.conv p) (oracle.tr p) s).2.1]

theorem perPost_sent (is2 : Bool) (chat : String) (oracle : RunOracle)
    (s : DispatchState) (p : Post) :
    chanSent is2 (perPost is2 chat oracle s p).metrics
      ≤ chanSent is2 s.metrics + 1 := by
  unfold perPost
  rw [send_exc_total]
  simp [chanSent_incProcessed]
  exact (send_shape p chat is2 (oracle.conv p) (oracle.tr p) s).2.2.1

theorem perPost_calls (is2 : Bool) (chat : String) (oracle : RunOracle)
    (s : DispatchState) (p : Post) :
    ∀ call ∈ (perPost is2 chat oracle s p).calls,
      call ∈ s.calls ∨ call.chatId = chat := by
  unfold perPost
  rw [send_exc_total]
  simp only []
  exact (send_shape p chat is2 (oracle.conv p) (oracle.tr p) s).2.2.2

theorem foldl_perPost_api (is2 : Bool) (chat : String) (oracle : RunOracle) :
    ∀ (l : List Post) (s : DispatchState),
      ((l.foldl (perPost is2 chat oracle) s).metrics.api_errors
        = s.metrics.api_errors) := by
  intro l
  induction l with
  | nil => intro s; simp
  | cons p ps ih =>
    intro s
    rw [List.foldl_cons, ih, perPost_api]

theorem foldl_perPost_counts (is2 : Bool) (chat : String) (oracle : RunOracle) :
    ∀ (l : List Post) (s : DispatchState),
      chanProcessed is2 ((l.foldl (perPost is2 chat oracle) s).metrics)
          = chanProcessed is2 s.metrics + l.length ∧
      chanSent is2 ((l.foldl (perPost is2 chat oracle) s).metrics)
          ≤ chanSent is2 s.metrics + l.length := by
  intro l
  induction l with
  | nil => intro s; simp
  | cons p ps ih =>
    intro s
    have h1 := perPost_processed is2 chat oracle s p
    have h2 := perPost_sent is2 chat oracle s p
    have h3 := ih (perPost is2 chat oracle s p)
    rw [List.foldl_cons]
    constructor
    · rw [h3.1, h1]
      simp only [List.length_cons]
      omega
    · have := h3.2
      simp only [List.length_cons]
      omega

theorem foldl_perPost_calls (is2 : Bool) (chat : String) (oracle : RunOracle) :
    ∀ (l : List Post) (s : DispatchState),
      (∀ call ∈ s.calls, call.chatId = chat) →
      ∀ call ∈ (l.foldl (perPost is2 chat oracle) s).calls, call.chatId = chat := by
  intro l
  induction l with
  | nil => intro s hs; simpa using hs
  | cons p ps ih =>
    intro s hs
    rw [List.foldl_cons]
    apply ih
    intro call hc
    rcases perPost_calls is2 chat oracle s p call hc with h | h
    · exact hs call h
    · exact h

/-! ## Claim theorems: dispatcher fallback, failure isolation, temp files, counters, routing -/

/-- C3 (amended): a timeout reaching the outer handler — from the
conversion path's video attempt, or from the animation fallback — yields
Failed(transport-timeout) with no further delivery attempt; but on the
direct-URL path a timeout of the video attempt is caught by the inner
`except TelegramError` (TimedOut is a subclass) and triggers the animation
fallback. -/
theorem timeout_handling (post : Post) (chat_id : String) (is2 : Bool)
    (conv : ConvOracle) (tr : Transport) (s : DispatchState) :
    (endsWithWebm post.file.url = true → conv.downloadOk = true →
     conv.transcodeOk = true → tr.sendVideoFile = some PyError.timedOut →
      (send_telegram_message post chat_id is2 conv tr s).snd = Outcome.failedTimeout ∧
      (send_telegram_message post chat_id is2 conv tr s).fst.calls
        = s.calls ++ [SendCall.video chat_id conv.mp4Path (message_text post)]) ∧
    (endsWithWebm post.file.url = false →
     tr.sendVideoUrl = some PyError.timedOut → tr.sendAnimationUrl = none →
      (send_telegram_message post chat_id is2 conv tr s).snd = Outcome.deliveredAnimation ∧
      (send_telegram_message post chat_id is2 conv tr s).fst.calls
        = s.calls ++ [SendCall.video chat_id post.file.url (message_text post),
                      SendCall.animation chat_id post.file.url (message_text post)]) ∧
    (endsWithWebm post.file.url = false →
     tr.sendVideoUrl = some PyError.telegramError →
     tr.sendAnimationUrl = some PyError.timedOut →
      (send_telegram_message post chat_id is2 conv tr s).snd = Outcome.failedTimeout ∧
      (send_telegram_message post chat_id is2 conv tr s).fst.calls
        = s.calls ++ [SendCall.video chat_id post.file.url (message_text post),
                      SendCall.animation chat_id post.file.url (message_text post)]) := by
  refine ⟨?_, ?_, ?_⟩
  · intro hw hd ht hf
    unfold send_telegram_message send_telegram_message_exc send_inner
    simp [hw, hd, ht, hf, convert_webm_to_mp4, attemptSend, classifyOuter, isTimedOut]
  · intro hw hv ha
    unfold send_telegram_message send_telegram_message_exc send_inner
    simp [hw, hv, ha, attemptSend, isTelegramError]
  · intro hw hv ha
    unfold send_telegram_message send_telegram_message_exc send_inner
    simp [hw, hv, ha, attemptSend, isTelegramError, classifyOuter, isTimedOut]

/-- C3 counterexample: on the direct-URL path a video-attempt timeout does
trigger the animation fallback, and the outcome is Delivered(animation),
not Failed(transport-timeout). -/
theorem url_timeout_triggers_fallback :
    (send_telegram_message gifPost "chan1" false cv0 trUrlVideoTimeout st0).snd
      = Outcome.deliveredAnimation ∧
    (send_telegram_message gifPost "chan1" false cv0 trUrlVideoTimeout st0).fst.calls.length
      = 2 ∧
    (send_telegram_message gifPost "chan1" false cv0 trUrlVideoTimeout st0).snd
      ≠ Outcome.failedTimeout := by
  refine ⟨rfl, rfl, ?_⟩
  decide

/-- C3 witness. -/
theorem timeout_handling_witness :
    (send_telegram_message webmPost "chan1" false cv0 trFileTimeout st0).snd
      = Outcome.failedTimeout ∧
    (send_telegram_message webmPost "chan1" false cv0 trFileTimeout st0).fst.calls
      = st0.calls ++ [SendCall.video "chan1" cv0.mp4Path (message_text webmPost)] :=
  (timeout_handling webmPost "chan1" false cv0 trFileTimeout st0).1
    (by decide) rfl rfl rfl

/-- C4: no exception escapes the per-post boundary — the dispatcher's outer
handlers make it total, and the router's per-post `except` branch
(`API_ERRORS.inc()`) never runs during the loop. -/
theorem per_post_failure_isolated :
    (∀ (post : Post) (chat_id : String) (is2 : Bool) (conv : ConvOracle)
       (tr : Transport) (s : DispatchState),
      send_telegram_message_exc post chat_id is2 conv tr s
        = Except.ok (send_telegram_message post chat_id is2 conv tr s)) ∧
    (∀ (is2 : Bool) (g : Globals) (posts : List Post) (blacklist : List String)
       (oracle : RunOracle) (s : DispatchState), posts ≠ [] →
      (process_posts is2 g (some posts) blacklist oracle s).metrics.api_errors
        = s.metrics.api_errors) := by
  constructor
  · exact send_exc_total
  · intro is2 g posts blacklist oracle s hne
    cases posts with
    | nil => exact absurd rfl hne
    | cons p ps =>
      simp only [process_posts, List.isEmpty_cons, Bool.false_eq_true, if_false]
      rw [foldl_perPost_api]

/-- C4 witness. -/
theorem per_post_failure_isolated_witness :
    send_telegram_message_exc gifPost "chan1" false cv0 trOk st0
      = Except.ok (send_telegram_message gifPost "chan1" false cv0 trOk st0) ∧
    (process_posts false g0 (some [gifPost]) [] oracle0 st0).metrics.api_errors
      = st0.metrics.api_errors :=
  ⟨per_post_failure_isolated.1 gifPost "chan1" false cv0 trOk st0,
   per_post_failure_isolated.2 false g0 [gifPost] [] oracle0 st0 (by decide)⟩

/-- C5 (amended): on the direct-URL path, a content-rejection transport
error on the video attempt makes the dispatcher attempt the animation with
the identical caption, and a successful animation gives
Delivered(animation). -/
theorem url_video_rejection_falls_back (post : Post) (chat_id : String)
    (is2 : Bool) (conv : ConvOracle) (tr : Transport) (s : DispatchState)
    (hw : endsWithWebm post.file.url = false)
    (hv : tr.sendVideoUrl = some PyError.telegramError)
    (ha : tr.sendAnimationUrl = none) :
    (send_telegram_message post chat_id is2 conv tr s).snd
      = Outcome.deliveredAnimation ∧
    (send_telegram_message post chat_id is2 conv tr s).fst.calls
      = s.calls ++ [SendCall.video chat_id post.file.url (message_text post),
                    SendCall.animation chat_id post.file.url (message_text post)] ∧
    chanSent is2 (send_telegram_message post chat_id is2 conv tr s).fst.metrics
      = chanSent is2 s.metrics + 1 := by
  unfold send_telegram_message send_telegram_message_exc send_inner
  simp [hw, hv, ha, attemptSend, isTelegramError, chanSent_incSent]

/-- C5 counterexample: for a WebM post (conversion path) a content-rejection
error on the video attempt does NOT trigger the animation fallback: a single
call is made and the outcome is Failed(transport-error). -/
theorem webm_rejection_no_fallback :
    (send_telegram_message webmPost "chan1" false cv0 trFileReject st0).snd
      = Outcome.failedTransport ∧
    (send_telegram_message webmPost "chan1" false cv0 trFileReject st0).fst.calls.length
      = 1 := ⟨rfl, rfl⟩

/-- C5 witness. -/
theorem url_video_rejection_falls_back_witness :
    (send_telegram_message gifPost "chan1" false cv0 trUrlReject st0).snd
      = Outcome.deliveredAnimation ∧
    (send_telegram_message gifPost "chan1" false cv0 trUrlReject st0).fst.calls
      = st0.calls ++ [SendCall.video "chan1" gifPost.file.url (message_text gifPost),
                      SendCall.animation "chan1" gifPost.file.url (message_text gifPost)] ∧
    chanSent false (send_telegram_message gifPost "chan1" false cv0 trUrlReject st0).fst.metrics
      = chanSent false st0.metrics + 1 :=
  url_video_rejection_falls_back gifPost "chan1" false cv0 trUrlReject st0
    (by decide) rfl rfl

/-- C8: evaluating the dispatcher at the failing input — a WebM post whose
conversion succeeds and whose send then times out — shows the converted
.mp4 is left on disk (removed only on the success path), and a download
failure likewise leaks the .webm temp file. -/
theorem converted_mp4_leaks_on_send_failure :
    (send_telegram_message webmPost "chan1" false cv0 trFileTimeout st0).fst.files
      = ["/tmp/t.mp4"] ∧
    (send_telegram_message webmPost "chan1" false cv0 trFileTimeout st0).snd
      = Outcome.failedTimeout ∧
    (send_telegram_message webmPost "chan1" false cvDownloadFail trOk st0).fst.files
      = ["/tmp/t.webm"] := ⟨rfl, rfl, rfl⟩

/-- C9: each non-blacklisted fetched post bumps the channel's processed
counter exactly once, whatever its dispatch outcome; the sent counter's
increase never exceeds it. -/
theorem processed_once_per_filtered_post (is2 : Bool) (g : Globals)
    (fetched : Option (List Post)) (blacklist : List String)
    (oracle : RunOracle) (s : DispatchState) :
    chanProcessed is2 (process_posts is2 g fetched blacklist oracle s).metrics
      = chanProcessed is2 s.metrics + nonBlacklistedCount fetched blacklist ∧
    chanSent is2 (process_posts is2 g fetched blacklist oracle s).metrics
      ≤ chanSent is2 s.metrics + nonBlacklistedCount fetched blacklist := by
  cases fetched with
  | none =>
    simp [process_posts, nonBlacklistedCount,
          chanProcessed_incApiErrors, chanSent_incApiErrors]
  | some posts =>
    cases posts with
    | nil =>
      simp [process_posts, nonBlacklistedCount,
            chanProcessed_incApiErrors, chanSent_incApiErrors]
    | cons p ps =>
      simp only [process_posts, List.isEmpty_cons, Bool.false_eq_true, if_false, nonBlacklistedCount]
      exact foldl_perPost_counts is2
        (if is2 then g.telegram_channel_id_2 else g.telegram_channel_id) oracle
        ((p :: ps).filter (fun post => !is_blacklisted post blacklist)) s

/-- C10: the startup channel-id normalization loop only rebinds its local
loop variable, so the globals are unchanged and every transport call uses
the raw configured identifier. -/
theorem channel_id_normalization_dead (g : Globals) (is2 : Bool)
    (fetched : Option (List Post)) (blacklist : List String)
    (oracle : RunOracle) (s : DispatchState) (hs : s.calls = []) :
    (format_chat_ids g).fst = g ∧
    ∀ call ∈ (process_posts is2 g fetched blacklist oracle s).calls,
      call.chatId = (if is2 then g.telegram_channel_id_2 else g.telegram_channel_id) := by
  constructor
  · rfl
  · cases fetched with
    | none => simp [process_posts, hs]
    | some posts =>
      cases posts with
      | nil => simp [process_posts, hs]
      | cons p ps =>
        simp only [process_posts, List.isEmpty_cons, Bool.false_eq_true, if_false]
        apply foldl_perPost_calls
        intro call hc
        rw [hs] at hc
        exact absurd hc (List.not_mem_nil call)

/-- C10 witness. -/
theorem channel_id_normalization_dead_witness :
    (format_chat_ids g0).fst = g0 ∧
    (SendCall.video "chan1" "https://x/file.gif" (message_text gifPost)).chatId
      = (if false then g0.telegram_channel_id_2 else g0.telegram_channel_id) :=
  ⟨(channel_id_normalization_dead g0 false (some [gifPost]) [] oracle0 st0 rfl).1,
   (channel_id_normalization_dead g0 false (some [gifPost]) [] oracle0 st0 rfl).2
     (SendCall.video "chan1" "https://x/file.gif" (message_text gifPost)) (by decide)⟩

end E621Bot
